import Mathlib

/-!
Verification of the VitalCircle risk-scoring and prediction logic.

The definitions below are a shallow embedding of:
* `backend/ai_engine/views.py` — `StabilityScoreService` and
  `_gather_patient_context`;
* `backend/model_runner/llama_runner.py` — `LlamaRunner.predict_medical_risk`,
  `run_llama`, `_get_error_response`, `_get_safe_prediction_response`;
* `backend/core/auth.py` — `create_jwt_token`, `verify_jwt_token`;
* the Django model field lists of `backend/vitals/models.py` and
  `backend/ai_engine/models.py` (schema level, as lists of field names).

Numeric values are modelled as exact rationals (`ℚ`); the Python code uses
ints and floats, but every constant involved is an exact decimal and the
claims under study are about the arithmetic structure, not float rounding.
Python truthiness (`if x:` on an optional numeric) is modelled explicitly:
`None` and `0` are both falsy.
-/

namespace VitalCircle

/-! ## Schema-level model

Field names of the Django models, copied from the model class definitions.
A query reference records which fields a piece of ORM code mentions; it is
well formed against a table when every mentioned field exists there.
Django resolves field names eagerly in `filter(...)` / `aggregate(...)` and
raises `FieldError` when a name does not resolve.
-/

/-- Fields of `vitals.models.VitalSigns` (vitals/models.py). -/
def vitalSignsFields : List String :=
  ["id", "patient", "systolic_bp", "diastolic_bp", "heart_rate",
   "temperature", "weight", "height", "blood_glucose", "oxygen_saturation",
   "respiratory_rate", "measured_at", "source", "device_info", "notes",
   "created_at", "updated_at"]

/-- Fields of `vitals.models.LifestyleMetrics` (vitals/models.py). -/
def lifestyleMetricsFields : List String :=
  ["id", "patient", "stress_level", "mood_rating", "sleep_hours",
   "sleep_quality", "sodium_intake", "water_intake", "calorie_intake",
   "food_log", "activity_level", "exercise_minutes", "steps_count",
   "medication_taken", "missed_doses", "medication_adherence_percentage",
   "recorded_at", "notes", "created_at", "updated_at"]

/-- Fields of `vitals.models.SymptomReport` (vitals/models.py). -/
def symptomReportFields : List String :=
  ["id", "patient", "symptom_name", "description", "severity", "onset_time",
   "duration_hours", "triggers", "relieving_factors", "associated_symptoms",
   "resolved", "resolved_at", "follow_up_needed", "reported_at", "updated_at"]

/-- A set of field names referenced by one ORM call site. -/
structure QueryRef where
  filterFields : List String
  aggregateFields : List String
deriving DecidableEq

/-- `calculate_stability_score` filters `VitalSigns` on
`patient` and `recorded_at__gte` (views.py lines 32-35). -/
def recentVitalsQuery : QueryRef :=
  { filterFields := ["patient", "recorded_at"], aggregateFields := [] }

/-- `_calculate_vitals_score` aggregates averages over `VitalSigns`
(views.py lines 100-105). -/
def vitalsAggregateQuery : QueryRef :=
  { filterFields := [],
    aggregateFields := ["systolic_bp", "diastolic_bp", "heart_rate", "temperature"] }

/-- `calculate_stability_score` filters `LifestyleMetrics` on
`patient` and `recorded_at__gte` (views.py lines 37-40). -/
def recentLifestyleQuery : QueryRef :=
  { filterFields := ["patient", "recorded_at"], aggregateFields := [] }

/-- `_calculate_lifestyle_score` aggregates averages over `LifestyleMetrics`
(views.py lines 133-139). -/
def lifestyleAggregateQuery : QueryRef :=
  { filterFields := [],
    aggregateFields := ["stress_level", "sleep_hours", "sleep_quality",
                        "exercise_minutes", "diet_quality"] }

/-- `_calculate_medication_score` aggregates `Avg` over the field
`medication_adherence` of `LifestyleMetrics` (views.py lines 175-177). -/
def medicationAggregateQuery : QueryRef :=
  { filterFields := [], aggregateFields := ["medication_adherence"] }

/-- `_calculate_symptom_score` filters `SymptomReport` on `patient` and
`reported_at__gte` and aggregates `Avg` over `severity_level`
(views.py lines 191-202). -/
def symptomAggregateQuery : QueryRef :=
  { filterFields := ["patient", "reported_at"], aggregateFields := ["severity_level"] }

/-- A query reference is well formed against a table schema when every
field it mentions is a field of the table. -/
def wellFormedAgainst (q : QueryRef) (schema : List String) : Bool :=
  (q.filterFields ++ q.aggregateFields).all fun f => schema.contains f

/-! ## Value-level model of `StabilityScoreService`

Rows carry exactly the column values the scoring code reads.  `Option ℚ`
models nullable numeric columns.  `avgVals` is Django `Avg`: it ignores
NULLs and yields `None` when no non-null value exists.
-/

/-- Django `Avg` over a column: average of the non-null values, `none` when
every value is null. -/
def avgVals (xs : List (Option ℚ)) : Option ℚ :=
  let vs := xs.filterMap id
  if vs.length = 0 then none else some (vs.sum / (vs.length : ℚ))

/-- The columns of a `VitalSigns` row read by `_calculate_vitals_score`. -/
structure VitalSignsRow where
  systolic_bp : Option ℚ
  diastolic_bp : Option ℚ
  heart_rate : Option ℚ
  temperature : Option ℚ
deriving DecidableEq

/-- The lifestyle columns read by `_calculate_lifestyle_score` and
`_calculate_medication_score`.  `medication_adherence` is the column name
the views code references; the `LifestyleMetrics` model actually declares
`medication_adherence_percentage` (see the schema-level model above).
The `diet_quality` average ends up unused by the scoring arithmetic. -/
structure LifestyleMetricsRow where
  stress_level : Option ℚ
  sleep_hours : Option ℚ
  sleep_quality : Option ℚ
  exercise_minutes : Option ℚ
  medication_adherence : Option ℚ
deriving DecidableEq

/-- The column of a `SymptomReport` row read by `_calculate_symptom_score`
(`severity` in the model; the views code spells it `severity_level`). -/
structure SymptomReportRow where
  severity : ℚ
deriving DecidableEq

/-- Blood-pressure penalty of `_calculate_vitals_score` (views.py lines
107-117).  Python guards with `if systolic and diastolic:` so a null or
zero average skips the whole block. -/
def bpPenalty (systolic diastolic : Option ℚ) : ℚ :=
  match systolic, diastolic with
  | some s, some d =>
    if s ≠ 0 ∧ d ≠ 0 then
      if 140 < s ∨ 90 < d then 25
      else if 130 < s ∨ 85 < d then 15
      else if s < 90 ∨ d < 60 then 20
      else 0
    else 0
  | _, _ => 0

/-- Heart-rate penalty of `_calculate_vitals_score` (views.py lines
119-123), with the same truthiness guard. -/
def hrPenalty (heartRate : Option ℚ) : ℚ :=
  match heartRate with
  | some h => if h ≠ 0 then (if 100 < h ∨ h < 60 then 15 else 0) else 0
  | none => 0

/-- `_calculate_vitals_score`: 50 when no recent rows exist, otherwise 100
minus the penalties, floored at 0. -/
def calcVitalsScore (rows : List VitalSignsRow) : ℚ :=
  if rows.isEmpty then 50
  else
    max 0 (100
      - bpPenalty (avgVals (rows.map VitalSignsRow.systolic_bp))
                  (avgVals (rows.map VitalSignsRow.diastolic_bp))
      - hrPenalty (avgVals (rows.map VitalSignsRow.heart_rate)))

/-- Stress penalty of `_calculate_lifestyle_score` (views.py lines 144-149). -/
def stressPenalty (stress : Option ℚ) : ℚ :=
  match stress with
  | some v => if v ≠ 0 then (if 4 ≤ v then 20 else if 3 ≤ v then 10 else 0) else 0
  | none => 0

/-- Sleep-hours penalty of `_calculate_lifestyle_score` (views.py lines 152-155). -/
def sleepHoursPenalty (hours : Option ℚ) : ℚ :=
  match hours with
  | some v => if v ≠ 0 then (if v < 6 ∨ 9 < v then 15 else 0) else 0
  | none => 0

/-- Sleep-quality penalty of `_calculate_lifestyle_score` (views.py lines 157-159). -/
def sleepQualityPenalty (quality : Option ℚ) : ℚ :=
  match quality with
  | some v => if v ≠ 0 ∧ v < 3 then 10 else 0
  | none => 0

/-- Exercise penalty of `_calculate_lifestyle_score` (views.py lines 162-165). -/
def exercisePenalty (minutes : Option ℚ) : ℚ :=
  match minutes with
  | some v => if v ≠ 0 ∧ v < 30 then 10 else 0
  | none => 0

/-- `_calculate_lifestyle_score`: 50 when no recent rows exist, otherwise
100 minus the penalties, floored at 0. -/
def calcLifestyleScore (rows : List LifestyleMetricsRow) : ℚ :=
  if rows.isEmpty then 50
  else
    max 0 (100
      - stressPenalty (avgVals (rows.map LifestyleMetricsRow.stress_level))
      - sleepHoursPenalty (avgVals (rows.map LifestyleMetricsRow.sleep_hours))
      - sleepQualityPenalty (avgVals (rows.map LifestyleMetricsRow.sleep_quality))
      - exercisePenalty (avgVals (rows.map LifestyleMetricsRow.exercise_minutes)))

/-- `_calculate_medication_score`: 80 when no recent lifestyle rows exist or
the adherence average is null; otherwise the bare average, with no clamp. -/
def calcMedicationScore (rows : List LifestyleMetricsRow) : ℚ :=
  if rows.isEmpty then 80
  else
    match avgVals (rows.map LifestyleMetricsRow.medication_adherence) with
    | none => 80
    | some a => a

/-- `_calculate_symptom_score`: 100 when no recent symptom reports exist,
otherwise 100 minus ten times the average severity minus five per report,
floored at 0. -/
def calcSymptomScore (rows : List SymptomReportRow) : ℚ :=
  if rows.isEmpty then 100
  else
    max 0 (100 - ((rows.map SymptomReportRow.severity).sum / (rows.length : ℚ)) * 10
               - (rows.length : ℚ) * 5)

/-- Weight of the vitals sub-score (views.py lines 49-54). -/
def weightVitals : ℚ := 0.35

/-- Weight of the lifestyle sub-score. -/
def weightLifestyle : ℚ := 0.25

/-- Weight of the medication sub-score. -/
def weightMedication : ℚ := 0.25

/-- Weight of the symptom sub-score. -/
def weightSymptoms : ℚ := 0.15

/-- The weighted overall score (views.py lines 56-61). -/
def overallScore (vitals lifestyle medication symptoms : ℚ) : ℚ :=
  vitals * weightVitals + lifestyle * weightLifestyle +
  medication * weightMedication + symptoms * weightSymptoms

/-- `_determine_risk_level` (views.py lines 211-221). -/
def determineRiskLevel (score : ℚ) : String :=
  if 80 ≤ score then "low"
  else if 60 ≤ score then "medium"
  else if 40 ≤ score then "high"
  else "critical"

/-- The risk-probability expression of views.py line 72. -/
def calcRiskProbability (overall : ℚ) : ℚ :=
  max 0 ((100 - overall) / 100)

/-- The fields of the persisted `StabilityScore` record the claims are
about; the Python code additionally rounds `score` to one decimal and
`risk_probability` to three before storing. -/
structure StabilityScoreRecord where
  score : ℚ
  risk_level : String
  vital_signs_score : ℚ
  lifestyle_score : ℚ
  medication_adherence_score : ℚ
  symptom_burden_score : ℚ
  risk_probability : ℚ
deriving DecidableEq

/-- The arithmetic pipeline of `calculate_stability_score` (views.py lines
26-91), as a function of the rows of the trailing 7-day window.  In the
source this pipeline is reached through ORM calls whose field references
are modelled at the schema level above. -/
def calculateStabilityScore (vitals : List VitalSignsRow)
    (lifestyle : List LifestyleMetricsRow)
    (symptoms : List SymptomReportRow) : StabilityScoreRecord :=
  let v := calcVitalsScore vitals
  let l := calcLifestyleScore lifestyle
  let m := calcMedicationScore lifestyle
  let s := calcSymptomScore symptoms
  let overall := overallScore v l m s
  { score := overall
    risk_level := determineRiskLevel overall
    vital_signs_score := v
    lifestyle_score := l
    medication_adherence_score := m
    symptom_burden_score := s
    risk_probability := calcRiskProbability overall }

/-! ## Model of `LlamaRunner` (model_runner/llama_runner.py)

`predict_medical_risk` calls `run_llama`, which itself wraps the mocked LLM
call (`_generate_mock_response`) in a `try`/`except` that substitutes
`_get_error_response`.  In this typed embedding the possibility that the
mocked call raises is the `Except` parameter; the post-processing done by
`predict_medical_risk` on a well-shaped response is total.
-/

/-- The shape of a raw `run_llama` response: `risk_prediction` and
`explainability` payload.  The stability score travels as a numeric string
in the source and is parsed back with `float`; it is kept as `ℚ` here. -/
structure LlamaResponse where
  binary_risk_label : String
  stability_score : ℚ
  key_factors : List String
deriving DecidableEq

/-- `_get_error_response` (llama_runner.py lines 398-408). -/
def getErrorResponse (msg : String) : LlamaResponse :=
  { binary_risk_label := "0"
    stability_score := 50
    key_factors := ["Error in assessment: " ++ msg] }

/-- `run_llama` (llama_runner.py lines 248-277): the mocked prediction when
it succeeds, `_get_error_response` when it raises. -/
def runLlama (mockResult : Except String LlamaResponse) : LlamaResponse :=
  match mockResult with
  | .ok r => r
  | .error e => getErrorResponse e

/-- The risk-level branch of `predict_medical_risk` (lines 129-141). -/
def predictRiskLevel (s : ℚ) : String :=
  if 80 ≤ s then "LOW"
  else if 60 ≤ s then "MODERATE"
  else if 40 ≤ s then "HIGH"
  else "CRITICAL"

/-- The `s ≥ 80` branch formula for the risk percentage (line 132). -/
def riskPctLow (s : ℚ) : ℚ := 25 - (s - 80) * 1.25

/-- The `60 ≤ s < 80` branch formula (line 135). -/
def riskPctModerate (s : ℚ) : ℚ := 25 + (80 - s) * 1.25

/-- The `40 ≤ s < 60` branch formula (line 138). -/
def riskPctHigh (s : ℚ) : ℚ := 50 + (60 - s) * 1.25

/-- The `s < 40` branch formula (line 141). -/
def riskPctCritical (s : ℚ) : ℚ := 75 + (40 - s) * 0.625

/-- The piecewise risk percentage before clamping (lines 130-141). -/
def predictRiskPercentageRaw (s : ℚ) : ℚ :=
  if 80 ≤ s then riskPctLow s
  else if 60 ≤ s then riskPctModerate s
  else if 40 ≤ s then riskPctHigh s
  else riskPctCritical s

/-- The risk percentage after the clamp of line 144:
`max(0, min(100, risk_percentage))`. -/
def predictRiskPercentage (s : ℚ) : ℚ :=
  max 0 (min 100 (predictRiskPercentageRaw s))

/-- The fields of the `predict_medical_risk` result the claims are about. -/
structure PredictionResult where
  stability_score : ℚ
  risk_level : String
  risk_percentage : ℚ
  confidence_score : ℚ
  risk_factors : List String
deriving DecidableEq

/-- `_get_safe_prediction_response` (llama_runner.py lines 227-246). -/
def getSafePredictionResponse (msg : String) : PredictionResult :=
  { stability_score := 50
    risk_level := "MODERATE"
    risk_percentage := 50
    confidence_score := 0
    risk_factors := ["Assessment error: " ++ msg] }

/-- `predict_medical_risk` (llama_runner.py lines 105-166) on the result of
the mocked LLM call.  When the mocked call raises, `run_llama` has already
replaced the exception by `_get_error_response`, so the success path below
runs; the outer `except` of `predict_medical_risk` (which would return
`_get_safe_prediction_response`) guards only its own post-processing, which
on the well-shaped dictionaries produced by `run_llama` does not raise. -/
def predictMedicalRisk (mockResult : Except String LlamaResponse) : PredictionResult :=
  let resp := runLlama mockResult
  { stability_score := resp.stability_score
    risk_level := predictRiskLevel resp.stability_score
    risk_percentage := predictRiskPercentage resp.stability_score
    confidence_score := 0.85
    risk_factors := resp.key_factors }

/-! ## Model of JWT auth (core/auth.py)

`create_jwt_token` and `verify_jwt_token` delegate the cryptography to the
PyJWT library.  PyJWT is modelled by its documented contract as an ideal
signed token: a token determines the payload, the secret and the algorithm
it was signed with; decoding succeeds exactly when the supplied secret
matches, the algorithm is among the accepted ones and the `exp` claim has
not passed.  Time is a numeric timestamp. -/

/-- The user data `create_jwt_token` reads. -/
structure JwtUser where
  id : Nat
  username : String
deriving DecidableEq

/-- The payload built by `create_jwt_token` (auth.py lines 41-46). -/
structure JwtPayload where
  user_id : Nat
  username : String
  exp : Nat
  iat : Nat
deriving DecidableEq

/-- Ideal model of a PyJWT token: payload plus signing secret and
algorithm (signature unforgeability is modelled by the token literally
retaining the secret and algorithm used). -/
structure JwtToken where
  payload : JwtPayload
  secret : String
  algorithm : String
deriving DecidableEq

/-- Model of `jwt.encode(payload, secret, algorithm=alg)`. -/
def jwtEncode (payload : JwtPayload) (secret : String) (algorithm : String) : JwtToken :=
  { payload := payload, secret := secret, algorithm := algorithm }

/-- Model of `jwt.decode(token, secret, algorithms=algs)` at time `now`:
the payload when the secret matches, the algorithm is accepted and the
token is not expired; otherwise the `ExpiredSignatureError` and
`InvalidTokenError` outcomes, both mapped to `none` by the caller. -/
def jwtDecode (token : JwtToken) (secret : String) (algorithms : List String)
    (now : Nat) : Option JwtPayload :=
  if token.secret = secret ∧ token.algorithm ∈ algorithms ∧ now < token.payload.exp
  then some token.payload
  else none

/-- `create_jwt_token` (auth.py lines 39-54): payload with the user id and
username, expiry `now + JWT_EXPIRATION_DELTA`, signed with the configured
secret and algorithm. -/
def create_jwt_token (user : JwtUser) (now expirationDelta : Nat)
    (secret algorithm : String) : JwtToken :=
  jwtEncode
    { user_id := user.id, username := user.username,
      exp := now + expirationDelta, iat := now }
    secret algorithm

/-- `verify_jwt_token` (auth.py lines 57-67): decode with the configured
secret and algorithm list `[JWT_ALGORITHM]`, `none` on any decode error. -/
def verify_jwt_token (token : JwtToken) (secret algorithm : String)
    (now : Nat) : Option JwtPayload :=
  jwtDecode token secret [algorithm] now

/-! ## Model of the adherence computation of `_gather_patient_context`
(views.py lines 969-988) -/

/-- The column of a `MedicineIntake` row the adherence computation reads;
the list passed in stands for the rows of the trailing 7-day window of one
alert. -/
structure MedicineIntakeRow where
  status : String
deriving DecidableEq

/-- Number of intakes with status `taken` (views.py line 977). -/
def takenCount (recentIntakes : List MedicineIntakeRow) : Nat :=
  (recentIntakes.filter fun i => i.status == "taken").length

/-- The adherence rate of views.py line 978:
`taken / total * 100` when any intake was scheduled, else 100. -/
def adherenceRate (recentIntakes : List MedicineIntakeRow) : ℚ :=
  let totalScheduled := recentIntakes.length
  if 0 < totalScheduled
  then (takenCount recentIntakes : ℚ) / (totalScheduled : ℚ) * 100
  else 100

/-! ## Shared computation lemmas -/

/-- Averaging a single non-null value yields that value. -/
theorem avgVals_single (q : ℚ) : avgVals [some q] = some q := by
  simp [avgVals]

/-- Averaging a single null value yields `none`. -/
theorem avgVals_single_none : avgVals [none] = none := rfl

/-! ## Claim theorems -/

/-- C1 counterexample: the spec puts averaged blood pressure of exactly
140/90 in the −25 branch and exactly 130/85 in the −15 branch, but the
comparisons of `_calculate_vitals_score` are strict: at 140/90 the second
branch fires (−15, so a one-row window scores 85, not 75) and at 130/85 no
blood-pressure branch fires at all. -/
theorem bp_boundary_counterexample :
    bpPenalty (some 140) (some 90) = 15 ∧
    bpPenalty (some 140) (some 90) ≠ 25 ∧
    bpPenalty (some 130) (some 85) = 0 ∧
    bpPenalty (some 130) (some 85) ≠ 15 ∧
    calcVitalsScore [⟨some 140, some 90, none, none⟩] = 85 := by
  refine ⟨by decide, by decide, by decide, by decide, ?_⟩
  have h1 : avgVals (List.map VitalSignsRow.systolic_bp
      [⟨some 140, some 90, none, none⟩]) = some 140 := avgVals_single 140
  have h2 : avgVals (List.map VitalSignsRow.diastolic_bp
      [⟨some 140, some 90, none, none⟩]) = some 90 := avgVals_single 90
  have h3 : avgVals (List.map VitalSignsRow.heart_rate
      [⟨some 140, some 90, none, none⟩]) = none := avgVals_single_none
  simp only [calcVitalsScore, List.isEmpty_cons, h1, h2, h3]
  have hbp : bpPenalty (some 140) (some 90) = 15 := by decide
  have hhr : hrPenalty none = 0 := rfl
  rw [if_neg (by simp), hbp, hhr]
  norm_num [max_def]

/-- C1 amended: for averaged blood pressure with both components present
and nonzero, the strict comparisons of `_calculate_vitals_score` give:
systolic above 140 or diastolic above 90 → −25; otherwise systolic above
130 or diastolic above 85 → −15 (this branch captures exactly 140/90);
otherwise systolic below 90 or diastolic below 60 → −20; otherwise no
blood-pressure penalty (this captures exactly 130/85). -/
theorem bp_penalty_branches : ∀ s d : ℚ, s ≠ 0 → d ≠ 0 →
    ((140 < s ∨ 90 < d) → bpPenalty (some s) (some d) = 25) ∧
    (s ≤ 140 → d ≤ 90 → (130 < s ∨ 85 < d) → bpPenalty (some s) (some d) = 15) ∧
    (s ≤ 130 → d ≤ 85 → (s < 90 ∨ d < 60) → bpPenalty (some s) (some d) = 20) ∧
    (90 ≤ s → s ≤ 130 → 60 ≤ d → d ≤ 85 → bpPenalty (some s) (some d) = 0) := by
  intro s d hs hd
  have hguard : s ≠ 0 ∧ d ≠ 0 := ⟨hs, hd⟩
  refine ⟨?_, ?_, ?_, ?_⟩
  · intro h
    simp only [bpPenalty]
    rw [if_pos hguard, if_pos h]
  · intro h1 h2 h3
    simp only [bpPenalty]
    rw [if_pos hguard, if_neg (not_or.mpr ⟨not_lt.2 h1, not_lt.2 h2⟩), if_pos h3]
  · intro h1 h2 h3
    simp only [bpPenalty]
    rw [if_pos hguard,
      if_neg (not_or.mpr ⟨not_lt.2 (h1.trans (by norm_num)),
        not_lt.2 (h2.trans (by norm_num))⟩),
      if_neg (not_or.mpr ⟨not_lt.2 h1, not_lt.2 h2⟩), if_pos h3]
  · intro h1 h2 h3 h4
    simp only [bpPenalty]
    rw [if_pos hguard,
      if_neg (not_or.mpr ⟨not_lt.2 (h2.trans (by norm_num)),
        not_lt.2 (h4.trans (by norm_num))⟩),
      if_neg (not_or.mpr ⟨not_lt.2 h2, not_lt.2 h4⟩),
      if_neg (not_or.mpr ⟨not_lt.2 h1, not_lt.2 h3⟩)]

/-- C1 witness: the amended branch characterisation evaluated at the
concrete averages 150/95 and 120/70. -/
theorem bp_penalty_branches_witness :
    bpPenalty (some 150) (some 95) = 25 ∧ bpPenalty (some 120) (some 70) = 0 := by
  constructor
  · exact (bp_penalty_branches 150 95 (by norm_num) (by norm_num)).1
      (Or.inl (by norm_num))
  · exact (bp_penalty_branches 120 70 (by norm_num) (by norm_num)).2.2.2
      (by norm_num) (by norm_num) (by norm_num) (by norm_num)

/-- C2: the ORM calls issued by the stability-score calculation are not all
well formed against the model schemas.  The `VitalSigns` filter uses
`recorded_at` but the model declares `measured_at`; the lifestyle aggregate
uses `diet_quality` and the medication aggregate uses
`medication_adherence`, neither a field of `LifestyleMetrics`; the symptom
aggregate uses `severity_level` while `SymptomReport` declares `severity`.
Django raises `FieldError` on the first of these for every patient, so the
calculation does not always produce a score record. -/
theorem stability_queries_ill_formed :
    wellFormedAgainst recentVitalsQuery vitalSignsFields = false ∧
    wellFormedAgainst lifestyleAggregateQuery lifestyleMetricsFields = false ∧
    wellFormedAgainst medicationAggregateQuery lifestyleMetricsFields = false ∧
    wellFormedAgainst symptomAggregateQuery symptomReportFields = false ∧
    wellFormedAgainst recentLifestyleQuery lifestyleMetricsFields = true ∧
    wellFormedAgainst vitalsAggregateQuery vitalSignsFields = true ∧
    vitalSignsFields.contains "measured_at" = true ∧
    vitalSignsFields.contains "recorded_at" = false := by
  decide

/-- C3: the intended arithmetic of `calculate_stability_score` on a
patient with no vitals, lifestyle or symptom rows in the window: all four
neutral defaults, overall 0.35·50 + 0.25·50 + 0.25·80 + 0.15·100 = 65,
risk level medium (in the source this point is unreachable because the
initial `VitalSigns` filter names the nonexistent field `recorded_at`). -/
theorem empty_window_default_scores :
    calculateStabilityScore [] [] [] =
      { score := 65, risk_level := "medium", vital_signs_score := 50,
        lifestyle_score := 50, medication_adherence_score := 80,
        symptom_burden_score := 100, risk_probability := 0.35 } := by
  norm_num [calculateStabilityScore, calcVitalsScore, calcLifestyleScore,
    calcMedicationScore, calcSymptomScore, overallScore, weightVitals,
    weightLifestyle, weightMedication, weightSymptoms, determineRiskLevel,
    calcRiskProbability, max_def]

/-- C4: `_determine_risk_level` is the step function with cutoffs 80, 60
and 40: at least 80 → low, in [60, 80) → medium, in [40, 60) → high,
below 40 → critical. -/
theorem determine_risk_level_buckets : ∀ score : ℚ,
    (80 ≤ score → determineRiskLevel score = "low") ∧
    (60 ≤ score → score < 80 → determineRiskLevel score = "medium") ∧
    (40 ≤ score → score < 60 → determineRiskLevel score = "high") ∧
    (score < 40 → determineRiskLevel score = "critical") := by
  intro score
  refine ⟨?_, ?_, ?_, ?_⟩
  · intro h
    simp only [determineRiskLevel]
    rw [if_pos h]
  · intro h1 h2
    simp only [determineRiskLevel]
    rw [if_neg (not_le.2 h2), if_pos h1]
  · intro h1 h2
    simp only [determineRiskLevel]
    rw [if_neg (not_le.2 (h2.trans_le (by norm_num))), if_neg (not_le.2 h2),
      if_pos h1]
  · intro h
    simp only [determineRiskLevel]
    rw [if_neg (not_le.2 (h.trans_le (by norm_num))),
      if_neg (not_le.2 (h.trans_le (by norm_num))), if_neg (not_le.2 h)]

/-- C4 witness: the bucket theorem evaluated at 85, 65, 45 and 20. -/
theorem determine_risk_level_buckets_witness :
    determineRiskLevel 85 = "low" ∧ determineRiskLevel 65 = "medium" ∧
    determineRiskLevel 45 = "high" ∧ determineRiskLevel 20 = "critical" := by
  refine ⟨?_, ?_, ?_, ?_⟩
  · exact (determine_risk_level_buckets 85).1 (by norm_num)
  · exact (determine_risk_level_buckets 65).2.1 (by norm_num) (by norm_num)
  · exact (determine_risk_level_buckets 45).2.2.1 (by norm_num) (by norm_num)
  · exact (determine_risk_level_buckets 20).2.2.2 (by norm_num)

/-- C5: the risk probability persisted by the scoring run is
`max(0, (100 − score)/100)` of the overall score, and on scores in
[0, 100] this equals `(100 − score)/100` and lies in [0, 1]. -/
theorem risk_probability_linear :
    (∀ (v : List VitalSignsRow) (l : List LifestyleMetricsRow)
        (sy : List SymptomReportRow),
      (calculateStabilityScore v l sy).risk_probability =
        max 0 ((100 - (calculateStabilityScore v l sy).score) / 100)) ∧
    (∀ s : ℚ, 0 ≤ s → s ≤ 100 →
      calcRiskProbability s = max 0 ((100 - s) / 100) ∧
      calcRiskProbability s = (100 - s) / 100 ∧
      0 ≤ calcRiskProbability s ∧ calcRiskProbability s ≤ 1) := by
  constructor
  · intro v l sy
    rfl
  · intro s h1 h2
    have hnn : (0 : ℚ) ≤ (100 - s) / 100 := by
      apply div_nonneg (by linarith) (by norm_num)
    refine ⟨rfl, ?_, ?_, ?_⟩
    · exact max_eq_right hnn
    · exact le_max_left 0 _
    · apply max_le (by norm_num)
      rw [div_le_one (by norm_num : (0 : ℚ) < 100)]
      linarith

/-- C5 witness: the formula evaluated at the overall score 65 and at the
empty-window scoring run. -/
theorem risk_probability_linear_witness :
    calcRiskProbability 65 = 7 / 20 ∧
    (calculateStabilityScore [] [] []).risk_probability =
      max 0 ((100 - (calculateStabilityScore [] [] []).score) / 100) := by
  constructor
  · have h := (risk_probability_linear.2 65 (by norm_num) (by norm_num)).2.1
    rw [h]
    norm_num
  · exact risk_probability_linear.1 [] [] []

/-- C6: the four weights sum to exactly 1, so the weighted overall score of
sub-scores each in [0, 100] is again in [0, 100] with no further clamp;
and `_calculate_medication_score` returns the averaged adherence value with
no clamp of its own. -/
theorem weighted_sum_and_unclamped_medication :
    (weightVitals + weightLifestyle + weightMedication + weightSymptoms = 1) ∧
    (∀ v l m s : ℚ, 0 ≤ v → v ≤ 100 → 0 ≤ l → l ≤ 100 → 0 ≤ m → m ≤ 100 →
      0 ≤ s → s ≤ 100 →
      0 ≤ overallScore v l m s ∧ overallScore v l m s ≤ 100) ∧
    (∀ (rows : List LifestyleMetricsRow) (a : ℚ), rows.isEmpty = false →
      avgVals (rows.map LifestyleMetricsRow.medication_adherence) = some a →
      calcMedicationScore rows = a) := by
  refine ⟨?_, ?_, ?_⟩
  · norm_num [weightVitals, weightLifestyle, weightMedication, weightSymptoms]
  · intro v l m s hv1 hv2 hl1 hl2 hm1 hm2 hs1 hs2
    simp only [overallScore, weightVitals, weightLifestyle, weightMedication,
      weightSymptoms]
    constructor
    · nlinarith
    · nlinarith
  · intro rows a h1 h2
    simp [calcMedicationScore, h1, h2]

/-- C6 witness: the weighted-sum bounds at all-100 sub-scores, and the
medication sub-score passing through an out-of-range average of 150
unclamped. -/
theorem weighted_sum_and_unclamped_medication_witness :
    (0 ≤ overallScore 100 100 100 100 ∧ overallScore 100 100 100 100 ≤ 100) ∧
    calcMedicationScore [⟨none, none, none, none, some 150⟩] = 150 := by
  constructor
  · exact weighted_sum_and_unclamped_medication.2.1 100 100 100 100
      (by norm_num) (by norm_num) (by norm_num) (by norm_num)
      (by norm_num) (by norm_num) (by norm_num) (by norm_num)
  · exact weighted_sum_and_unclamped_medication.2.2
      [⟨none, none, none, none, some 150⟩] 150 rfl (avgVals_single 150)

/-- C7 counterexample: when the mocked LLM prediction raises, the result of
`predict_medical_risk` is not the hard-coded safe fallback
(50.0 / MODERATE / 50.0 / 0.0): the exception is already caught inside
`run_llama`, whose `_get_error_response` payload (stability 50) is then
processed normally, giving risk level HIGH, risk percentage 62.5 and
confidence 0.85. -/
theorem predict_error_counterexample :
    (predictMedicalRisk (Except.error "boom")).risk_level = "HIGH" ∧
    (predictMedicalRisk (Except.error "boom")).risk_percentage = 62.5 ∧
    (predictMedicalRisk (Except.error "boom")).confidence_score = 0.85 ∧
    predictMedicalRisk (Except.error "boom") ≠ getSafePredictionResponse "boom" := by
  refine ⟨?_, ?_, ?_, ?_⟩
  · norm_num [predictMedicalRisk, runLlama, getErrorResponse, predictRiskLevel]
  · norm_num [predictMedicalRisk, runLlama, getErrorResponse,
      predictRiskPercentage, predictRiskPercentageRaw, riskPctHigh,
      max_def, min_def]
  · norm_num [predictMedicalRisk]
  · intro h
    have h2 := congrArg PredictionResult.risk_level h
    norm_num [predictMedicalRisk, runLlama, getErrorResponse,
      predictRiskLevel, getSafePredictionResponse] at h2
    exact absurd h2 (by decide)

/-- C7 amended: for every input on which the mocked LLM prediction raises,
`run_llama` substitutes its error payload and `predict_medical_risk`
processes it as a normal prediction, returning stability score 50,
risk level HIGH, risk percentage 62.5, confidence 0.85 and the error
message as sole risk factor — never the safe fallback and never a
propagated error. -/
theorem predict_error_payload_behavior : ∀ msg : String,
    predictMedicalRisk (Except.error msg) =
      { stability_score := 50, risk_level := "HIGH", risk_percentage := 62.5,
        confidence_score := 0.85,
        risk_factors := ["Error in assessment: " ++ msg] } ∧
    predictMedicalRisk (Except.error msg) ≠ getSafePredictionResponse msg := by
  intro msg
  constructor
  · norm_num [predictMedicalRisk, runLlama, getErrorResponse,
      predictRiskLevel, predictRiskPercentage, predictRiskPercentageRaw,
      riskPctHigh, max_def, min_def]
  · intro h
    have h2 := congrArg PredictionResult.risk_level h
    norm_num [predictMedicalRisk, runLlama, getErrorResponse,
      predictRiskLevel, getSafePredictionResponse] at h2
    exact absurd h2 (by decide)

/-- The unclamped piecewise risk percentage of `predict_medical_risk` is
antitone: every branch has negative slope and adjacent branches agree at
the cutoffs. -/
theorem predictRiskPercentageRaw_antitone {s t : ℚ} (h : s ≤ t) :
    predictRiskPercentageRaw t ≤ predictRiskPercentageRaw s := by
  simp only [predictRiskPercentageRaw, riskPctLow, riskPctModerate,
    riskPctHigh, riskPctCritical]
  split_ifs <;> nlinarith

/-- C8: on stability scores in [0, 100] the derived risk percentage lies
in [0, 100]; as a function of the stability score it is monotonically
non-increasing; and the four piecewise-linear branch formulas agree at the
cutoffs 80, 60 and 40 (values 25, 50 and 75). -/
theorem risk_percentage_monotone_bounded :
    (∀ s : ℚ, 0 ≤ s → s ≤ 100 →
      0 ≤ predictRiskPercentage s ∧ predictRiskPercentage s ≤ 100) ∧
    (∀ s t : ℚ, s ≤ t → predictRiskPercentage t ≤ predictRiskPercentage s) ∧
    (riskPctLow 80 = riskPctModerate 80 ∧ riskPctLow 80 = 25 ∧
     riskPctModerate 60 = riskPctHigh 60 ∧ riskPctModerate 60 = 50 ∧
     riskPctHigh 40 = riskPctCritical 40 ∧ riskPctHigh 40 = 75) := by
  refine ⟨?_, ?_, ?_⟩
  · intro s h1 h2
    constructor
    · exact le_max_left 0 _
    · exact max_le (by norm_num) (min_le_left 100 _)
  · intro s t h
    exact max_le_max (le_refl 0)
      (min_le_min (le_refl 100) (predictRiskPercentageRaw_antitone h))
  · refine ⟨?_, ?_, ?_, ?_, ?_, ?_⟩ <;>
      norm_num [riskPctLow, riskPctModerate, riskPctHigh, riskPctCritical]

/-- C8 witness: the bounds at 50 and the monotone comparison between 50
and 70. -/
theorem risk_percentage_monotone_bounded_witness :
    (0 ≤ predictRiskPercentage 50 ∧ predictRiskPercentage 50 ≤ 100) ∧
    predictRiskPercentage 70 ≤ predictRiskPercentage 50 := by
  constructor
  · exact risk_percentage_monotone_bounded.1 50 (by norm_num) (by norm_num)
  · exact risk_percentage_monotone_bounded.2.1 50 70 (by norm_num)

/-- C9: a token from `create_jwt_token` verified with `verify_jwt_token`
before the expiry elapses yields the payload with the user id and
username; verifying after expiry, or a token signed with a different
secret or algorithm, yields `none`. -/
theorem jwt_round_trip : ∀ (user : JwtUser) (now delta : Nat)
    (secret alg : String) (t : Nat),
    (t < now + delta →
      verify_jwt_token (create_jwt_token user now delta secret alg) secret alg t =
        some { user_id := user.id, username := user.username,
               exp := now + delta, iat := now }) ∧
    (now + delta ≤ t →
      verify_jwt_token (create_jwt_token user now delta secret alg) secret alg t =
        none) ∧
    (∀ secret2 alg2 : String, secret2 ≠ secret ∨ alg2 ≠ alg →
      verify_jwt_token (create_jwt_token user now delta secret2 alg2) secret alg t =
        none) := by
  intro user now delta secret alg t
  refine ⟨?_, ?_, ?_⟩
  · intro h
    simp [verify_jwt_token, create_jwt_token, jwtEncode, jwtDecode, h]
  · intro h
    simp only [verify_jwt_token, create_jwt_token, jwtEncode, jwtDecode]
    rw [if_neg (by rintro ⟨h1, h2, h3⟩; exact absurd h3 (not_lt.2 h))]
  · intro secret2 alg2 hne
    simp only [verify_jwt_token, create_jwt_token, jwtEncode, jwtDecode]
    rw [if_neg ?_]
    rintro ⟨h1, h2, h3⟩
    rcases hne with hh | hh
    · exact hh h1
    · exact hh (List.mem_singleton.mp h2)

/-- C9 witness: a concrete user and configuration, verified before expiry,
after expiry, and against a token signed with a different secret. -/
theorem jwt_round_trip_witness :
    verify_jwt_token (create_jwt_token ⟨1, "alice"⟩ 0 3600 "sek" "HS256")
      "sek" "HS256" 100 =
      some { user_id := 1, username := "alice", exp := 3600, iat := 0 } ∧
    verify_jwt_token (create_jwt_token ⟨1, "alice"⟩ 0 3600 "sek" "HS256")
      "sek" "HS256" 5000 = none ∧
    verify_jwt_token (create_jwt_token ⟨1, "alice"⟩ 0 3600 "other" "HS256")
      "sek" "HS256" 100 = none := by
  refine ⟨?_, ?_, ?_⟩
  · exact (jwt_round_trip ⟨1, "alice"⟩ 0 3600 "sek" "HS256" 100).1 (by norm_num)
  · exact (jwt_round_trip ⟨1, "alice"⟩ 0 3600 "sek" "HS256" 5000).2.1 (by norm_num)
  · exact (jwt_round_trip ⟨1, "alice"⟩ 0 3600 "sek" "HS256" 100).2.2
      "other" "HS256" (Or.inl (by decide))

/-- C10: the adherence rate of `_gather_patient_context` lies in [0, 100],
equals 100 on an empty window (the guard that prevents a zero-denominator
division), and on a non-empty window satisfies
`rate · total = taken · 100`, i.e. it is taken/total × 100. -/
theorem adherence_rate_formula : ∀ intakes : List MedicineIntakeRow,
    0 ≤ adherenceRate intakes ∧ adherenceRate intakes ≤ 100 ∧
    (intakes.length = 0 → adherenceRate intakes = 100) ∧
    (0 < intakes.length →
      adherenceRate intakes * (intakes.length : ℚ) =
        (takenCount intakes : ℚ) * 100) := by
  intro intakes
  have hk : takenCount intakes ≤ intakes.length := List.length_filter_le _ _
  by_cases h : 0 < intakes.length
  · have hpos : (0 : ℚ) < (intakes.length : ℚ) := by exact_mod_cast h
    have hne : (intakes.length : ℚ) ≠ 0 := ne_of_gt hpos
    have hrate : adherenceRate intakes =
        (takenCount intakes : ℚ) / (intakes.length : ℚ) * 100 := by
      simp only [adherenceRate]
      rw [if_pos h]
    refine ⟨?_, ?_, ?_, ?_⟩
    · rw [hrate]
      positivity
    · rw [hrate]
      have hk2 : (takenCount intakes : ℚ) ≤ (intakes.length : ℚ) := by
        exact_mod_cast hk
      have hdiv : (takenCount intakes : ℚ) / (intakes.length : ℚ) ≤ 1 := by
        rw [div_le_one hpos]
        exact hk2
      linarith
    · intro h0
      exact absurd h0 (by omega)
    · intro h1
      rw [hrate]
      field_simp
  · have hrate : adherenceRate intakes = 100 := by
      simp only [adherenceRate]
      rw [if_neg h]
    exact ⟨by rw [hrate]; norm_num, by rw [hrate], fun _ => hrate,
      fun hpos => absurd hpos h⟩

/-- C10 witness: the adherence formula on an empty window and on a
two-intake window with one dose taken. -/
theorem adherence_rate_formula_witness :
    adherenceRate [] = 100 ∧
    adherenceRate [⟨"taken"⟩, ⟨"missed"⟩] = 50 := by
  constructor
  · exact (adherence_rate_formula []).2.2.1 rfl
  · have h := (adherence_rate_formula [⟨"taken"⟩, ⟨"missed"⟩]).2.2.2 (by decide)
    have h1 : takenCount [⟨"taken"⟩, ⟨"missed"⟩] = 1 := by decide
    rw [h1] at h
    norm_num at h
    linarith

end VitalCircle
